import Mathlib

/-!
Shallow embedding of the authorization and membership core of the
product-roadmap application.  The authoritative source is the final
database migration `supabase/migrations/20250907000000_final_schema_reset.sql`
(types, tables and the RPC functions `is_org_member`,
`create_organization_and_assign_admin`, `invite_organization_member`,
`accept_invitation`, `decline_invitation`, `update_organization_member_role`,
`remove_organization_member`), together with the same-timestamp migration
`20250907000000_fix_organization_creation.sql` which re-creates
`create_organization_and_assign_admin` with an identical body.

Modelling conventions:
  * `uuid` values are modelled as `Nat`; the database state carries a
    counter `nextId` standing for fresh uuid generation.
  * Tables are lists of rows; `SELECT ... INTO` of a single row is
    `List.find?` (first matching row).
  * Each plpgsql function runs in one transaction: it is a pure function
    from the database state to `Except SqlError DB`.  `RAISE EXCEPTION`
    aborts the transaction, so an `.error` result carries no state — the
    caller keeps the unchanged pre-state (made explicit by `applyResult`).
  * Timestamp columns (`created_at`, `updated_at`) are irrelevant to every
    claim and are omitted from the row types.
  * SQL three-valued logic: a comparison with `NULL` yields `NULL`, which
    an `IF` treats as false.  This matters in `accept_invitation` /
    `decline_invitation` (`(SELECT email ...) != invite.invitee_email`,
    modelled by `sqlNeqEmail`) and in `update_organization_member_role` /
    `remove_organization_member`, where an absent membership row leaves
    `member.organization_id` `NULL` and `is_org_member(NULL, uid, 'admin')`
    finds no row, returning false.
-/

namespace Roadmap

/-- The enum type `public.user_role` (`'admin' | 'editor' | 'viewer'`). -/
inductive Role where
  | admin
  | editor
  | viewer
deriving DecidableEq

/-- The enum type `public.invitation_status` (`'pending' | 'accepted' | 'declined'`). -/
inductive InvStatus where
  | pending
  | accepted
  | declined
deriving DecidableEq

/-- A row of `auth.users` (only the columns the core reads: id and email). -/
structure AuthUser where
  id : Nat
  email : String
deriving DecidableEq

/-- A row of `public.organizations`. -/
structure Organization where
  id : Nat
  name : String
  description : String
  created_by : Nat
deriving DecidableEq

/-- A row of `public.organization_members`.  The table has
`UNIQUE (user_id, organization_id)`. -/
structure Membership where
  id : Nat
  organization_id : Nat
  user_id : Nat
  role : Role
deriving DecidableEq

/-- A row of `public.invitations`. -/
structure Invitation where
  id : Nat
  organization_id : Nat
  invited_by : Nat
  invitee_email : String
  role : Role
  status : InvStatus
deriving DecidableEq

/-- The database state: the four tables the core touches, plus a fresh-uuid
counter modelling `uuid_generate_v4()` defaults. -/
structure DB where
  users : List AuthUser
  organizations : List Organization
  organization_members : List Membership
  invitations : List Invitation
  nextId : Nat
deriving DecidableEq

/-- The only failure mode of the plpgsql functions: `RAISE EXCEPTION msg`. -/
inductive SqlError where
  | raiseException (msg : String)
deriving DecidableEq

/-- Transactional semantics of calling a plpgsql function: on success the new
state is kept, on `RAISE EXCEPTION` the transaction is rolled back and the
database is unchanged. -/
def applyResult (db : DB) : Except SqlError DB → DB
  | .ok db' => db'
  | .error _ => db

/-- The `CASE role WHEN 'admin' THEN 3 WHEN 'editor' THEN 2 WHEN 'viewer'
THEN 1 ELSE 0 END` expression of `is_org_member` (the `ELSE 0` arm is
unreachable for an enum value). -/
def roleLevel : Role → Nat
  | .admin => 3
  | .editor => 2
  | .viewer => 1

/-- `SELECT ... FROM organization_members WHERE organization_id = org_id AND
user_id = user_id` — the single row for an (organization, user) pair. -/
def findMembership (db : DB) (orgId userId : Nat) : Option Membership :=
  db.organization_members.find? (fun m => m.organization_id == orgId && m.user_id == userId)

/-- `public.is_org_member(org_id, user_id, min_role)`: compares the member's
role level (`COALESCE(user_role_level, 0)` when no row matches) with the
minimum role's level. -/
def is_org_member (db : DB) (orgId userId : Nat) (minRole : Role) : Bool :=
  let userRoleLevel : Nat :=
    match findMembership db orgId userId with
    | some m => roleLevel m.role
    | none => 0
  decide (roleLevel minRole ≤ userRoleLevel)

/-- `SELECT email FROM auth.users WHERE id = auth.uid()` — `none` when the
user row is absent (SQL `NULL`). -/
def userEmail (db : DB) (userId : Nat) : Option String :=
  (db.users.find? (fun u => u.id == userId)).map AuthUser.email

/-- SQL `<left> != <right>` under three-valued logic when the left side may
be `NULL`: `NULL != x` is `NULL`, which an `IF` treats as false. -/
def sqlNeqEmail : Option String → String → Bool
  | none, _ => false
  | some a, b => a != b

/-- A plain `INSERT` into `organization_members`: raises on a
`UNIQUE (user_id, organization_id)` violation, otherwise appends a row with
a freshly generated id. -/
def insertMembership (db : DB) (orgId userId : Nat) (role : Role) : Except SqlError DB :=
  if (findMembership db orgId userId).isSome then
    .error (.raiseException "duplicate key value violates unique constraint")
  else
    .ok { db with
      organization_members :=
        db.organization_members ++ [⟨db.nextId, orgId, userId, role⟩],
      nextId := db.nextId + 1 }

/-- `INSERT ... ON CONFLICT (user_id, organization_id) DO UPDATE SET role = r`
(the upsert used by `accept_invitation`). -/
def upsertMembership (db : DB) (orgId userId : Nat) (role : Role) : DB :=
  if (findMembership db orgId userId).isSome then
    { db with
      organization_members := db.organization_members.map (fun m =>
        if m.organization_id == orgId && m.user_id == userId then
          { m with role := role }
        else m) }
  else
    { db with
      organization_members :=
        db.organization_members ++ [⟨db.nextId, orgId, userId, role⟩],
      nextId := db.nextId + 1 }

/-- `public.create_organization_and_assign_admin(org_name, org_description)`
with `auth.uid() = actingUser`: inserts the organization, then inserts the
creator as admin, and returns the new organization's id.  Both writes are in
one transaction. -/
def create_organization_and_assign_admin (db : DB) (actingUser : Nat)
    (orgName orgDescription : String) : Except SqlError (DB × Nat) :=
  let newOrgId := db.nextId
  let db1 : DB := { db with
    organizations :=
      db.organizations ++ [⟨newOrgId, orgName, orgDescription, actingUser⟩],
    nextId := db.nextId + 1 }
  match insertMembership db1 newOrgId actingUser Role.admin with
  | .error e => .error e
  | .ok db2 => .ok (db2, newOrgId)

/-- `public.invite_organization_member(org_id, invitee_email, invitee_role)`
with `auth.uid() = actingUser`: admin guard, then inserts a pending
invitation row. -/
def invite_organization_member (db : DB) (actingUser : Nat) (orgId : Nat)
    (inviteeEmail : String) (inviteeRole : Role) : Except SqlError DB :=
  if !(is_org_member db orgId actingUser Role.admin) then
    .error (.raiseException "Only admins can invite new members.")
  else
    .ok { db with
      invitations := db.invitations ++
        [⟨db.nextId, orgId, actingUser, inviteeEmail, inviteeRole, InvStatus.pending⟩],
      nextId := db.nextId + 1 }

/-- `SELECT * INTO invite FROM invitations WHERE id = invitation_id AND
status = 'pending'`. -/
def findPendingInvitation (db : DB) (invitationId : Nat) : Option Invitation :=
  db.invitations.find? (fun i => i.id == invitationId && i.status == InvStatus.pending)

/-- `public.accept_invitation(invitation_id)` with `auth.uid() = actingUser`:
not-found guard on the pending row, invitee-email identity guard, then the
membership upsert and the status update to `'accepted'`, all in one
transaction. -/
def accept_invitation (db : DB) (actingUser : Nat) (invitationId : Nat) :
    Except SqlError DB :=
  match findPendingInvitation db invitationId with
  | none => .error (.raiseException "Invitation not found or already actioned.")
  | some invite =>
    if sqlNeqEmail (userEmail db actingUser) invite.invitee_email then
      .error (.raiseException "You are not authorized to accept this invitation.")
    else
      let db1 := upsertMembership db invite.organization_id actingUser invite.role
      .ok { db1 with
        invitations := db1.invitations.map (fun i =>
          if i.id == invitationId then { i with status := InvStatus.accepted } else i) }

/-- `public.decline_invitation(invitation_id)` with `auth.uid() = actingUser`:
same guards as accept, then the status update to `'declined'` (no membership
side effect). -/
def decline_invitation (db : DB) (actingUser : Nat) (invitationId : Nat) :
    Except SqlError DB :=
  match findPendingInvitation db invitationId with
  | none => .error (.raiseException "Invitation not found or already actioned.")
  | some invite =>
    if sqlNeqEmail (userEmail db actingUser) invite.invitee_email then
      .error (.raiseException "You are not authorized to decline this invitation.")
    else
      .ok { db with
        invitations := db.invitations.map (fun i =>
          if i.id == invitationId then { i with status := InvStatus.declined } else i) }

/-- `public.update_organization_member_role(member_id, new_role)` with
`auth.uid() = actingUser`.  `SELECT * INTO member` of an absent row leaves
`member.organization_id` `NULL`; `is_org_member(NULL, uid, 'admin')` then
matches no membership row (the column is `NOT NULL`), so the guard fails and
the function raises the admin exception — there is no separate not-found
path in the source. -/
def update_organization_member_role (db : DB) (actingUser : Nat)
    (memberId : Nat) (newRole : Role) : Except SqlError DB :=
  let guardOk : Bool :=
    match db.organization_members.find? (fun m => m.id == memberId) with
    | some member => is_org_member db member.organization_id actingUser Role.admin
    | none => false
  if !guardOk then
    .error (.raiseException "Only admins can change roles.")
  else
    .ok { db with
      organization_members := db.organization_members.map (fun m =>
        if m.id == memberId then { m with role := newRole } else m) }

/-- `public.remove_organization_member(member_id)` with
`auth.uid() = actingUser`.  Same `NULL`-organization behaviour of the admin
guard as `update_organization_member_role`; the final migration contains no
last-admin check — the `DELETE` runs whenever the guard passes. -/
def remove_organization_member (db : DB) (actingUser : Nat) (memberId : Nat) :
    Except SqlError DB :=
  let guardOk : Bool :=
    match db.organization_members.find? (fun m => m.id == memberId) with
    | some member => is_org_member db member.organization_id actingUser Role.admin
    | none => false
  if !guardOk then
    .error (.raiseException "Only admins can remove members.")
  else
    .ok { db with
      organization_members :=
        db.organization_members.filter (fun m => !(m.id == memberId)) }

/-- Modelled from the spec: the failure taxonomy of §7 maps each raised
message to a failure kind (`Forbidden`, `NotFound`, `LastAdminError`,
`DuplicateMembership`).  The code itself raises bare messages; this
classification follows the spec's words: authorization failures are
`Forbidden`, an absent or already-actioned invitation is `NotFound`, a
unique-constraint violation is `DuplicateMembership`.  No message of the
final migration corresponds to `LastAdminError`. -/
inductive FailureKind where
  | forbidden
  | notFound
  | lastAdminError
  | duplicateMembership
deriving DecidableEq

/-- Modelled from the spec: classification of each `RAISE EXCEPTION` message
of the source into the spec's §7 failure kinds. -/
def errorKind : SqlError → FailureKind
  | .raiseException m =>
    if m = "Invitation not found or already actioned." then .notFound
    else if m = "duplicate key value violates unique constraint" then .duplicateMembership
    else .forbidden

/-- Number of admin memberships of an organization. -/
def adminCount (db : DB) (orgId : Nat) : Nat :=
  db.organization_members.countP (fun m => m.organization_id == orgId && m.role == Role.admin)

/-- The `UNIQUE (user_id, organization_id)` constraint on
`organization_members`, as a property of the table's rows. -/
def MembersUnique (db : DB) : Prop :=
  ∀ m1, m1 ∈ db.organization_members → ∀ m2, m2 ∈ db.organization_members →
    m1.organization_id = m2.organization_id → m1.user_id = m2.user_id → m1 = m2

/-- A database with one organization (id 10) whose sole membership is its
admin, user 1 (membership row id 20). -/
def dbSoleAdmin : DB :=
  { users := [⟨1, "admin@acme.test"⟩],
    organizations := [⟨10, "Acme", "d", 1⟩],
    organization_members := [⟨20, 10, 1, Role.admin⟩],
    invitations := [],
    nextId := 21 }

/-- A database with organization 10 (admin user 1) and a pending invitation
(id 30) of user 2's email at role editor. -/
def dbInv : DB :=
  { users := [⟨1, "a@x"⟩, ⟨2, "b@x"⟩],
    organizations := [⟨10, "Acme", "d", 1⟩],
    organization_members := [⟨20, 10, 1, Role.admin⟩],
    invitations := [⟨30, 10, 1, "b@x", Role.editor, InvStatus.pending⟩],
    nextId := 31 }

/-- Claim C1 (code_bug evaluation): in the final migration,
`remove_organization_member` has no last-admin guard.  At the failing input —
organization 10 whose sole membership is admin user 1, acting as user 1 on
membership 20 — the call succeeds and deletes the row, leaving the
organization with zero admins, where the spec demands a `LastAdminError`
failure with the membership rows unchanged. -/
theorem remove_sole_admin_succeeds :
    adminCount dbSoleAdmin 10 = 1 ∧
    is_org_member dbSoleAdmin 10 1 Role.admin = true ∧
    remove_organization_member dbSoleAdmin 1 20
        = .ok { dbSoleAdmin with organization_members := [] } ∧
    adminCount (applyResult dbSoleAdmin (remove_organization_member dbSoleAdmin 1 20)) 10 = 0 :=
  ⟨rfl, rfl, rfl, rfl⟩

/-- Claim C2 (code_bug evaluation): `update_organization_member_role` has no
last-admin guard in any observed revision.  At the failing input — the sole
admin (user 1) of organization 10 demoting their own membership 20 to
viewer — the call succeeds and the organization is left with zero admin
memberships, violating the spec's invariant that every created organization
always has at least one admin. -/
theorem demote_sole_admin_succeeds :
    adminCount dbSoleAdmin 10 = 1 ∧
    update_organization_member_role dbSoleAdmin 1 20 Role.viewer
        = .ok { dbSoleAdmin with organization_members := [⟨20, 10, 1, Role.viewer⟩] } ∧
    adminCount (applyResult dbSoleAdmin
        (update_organization_member_role dbSoleAdmin 1 20 Role.viewer)) 10 = 0 :=
  ⟨rfl, rfl, rfl⟩

/-- Claim C9 (counterexample): when no membership with the given id exists,
`update_organization_member_role` does not fail with `NotFound` — the
`SELECT INTO` leaves the organization `NULL`, the admin guard fails, and the
raised error is the `Forbidden`-classified admin message.  Concretely, in
`dbSoleAdmin` no membership has id 99, yet the call fails with the admin
message, whose spec classification is not `NotFound`. -/
theorem update_role_missing_fails_forbidden :
    (dbSoleAdmin.organization_members.find? (fun m => m.id == 99) = none) ∧
    update_organization_member_role dbSoleAdmin 1 99 Role.viewer
        = .error (.raiseException "Only admins can change roles.") ∧
    errorKind (.raiseException "Only admins can change roles.") ≠ FailureKind.notFound :=
  ⟨rfl, rfl, by decide⟩

/-- Claim C9 (amended): `update_organization_member_role` fails with the
`Forbidden`-classified admin error and leaves the database unchanged both
when the acting principal is not an admin of the membership's organization
and when no membership with the given id exists (in the latter case the
admin guard fails against the `NULL` organization; there is no `NotFound`
path). -/
theorem update_role_guard (db : DB) (u memberId : Nat) (r : Role) :
    (db.organization_members.find? (fun m => m.id == memberId) = none →
      update_organization_member_role db u memberId r
          = .error (.raiseException "Only admins can change roles.") ∧
        applyResult db (update_organization_member_role db u memberId r) = db) ∧
    (∀ mem, db.organization_members.find? (fun m => m.id == memberId) = some mem →
      is_org_member db mem.organization_id u Role.admin = false →
      update_organization_member_role db u memberId r
          = .error (.raiseException "Only admins can change roles.") ∧
        applyResult db (update_organization_member_role db u memberId r) = db) ∧
    errorKind (.raiseException "Only admins can change roles.") = FailureKind.forbidden := by
  refine ⟨?_, ?_, by decide⟩
  · intro h
    have he : update_organization_member_role db u memberId r
        = .error (.raiseException "Only admins can change roles.") := by
      unfold update_organization_member_role
      rw [h]
      rfl
    exact ⟨he, by rw [he]; rfl⟩
  · intro mem hfind hadm
    have he : update_organization_member_role db u memberId r
        = .error (.raiseException "Only admins can change roles.") := by
      unfold update_organization_member_role
      rw [hfind]
      simp [hadm]
    exact ⟨he, by rw [he]; rfl⟩

/-- Witness for the amended C9 theorem at concrete inputs: membership id 99
is absent from `dbSoleAdmin`, and user 2 is not an admin of membership 20's
organization. -/
theorem update_role_guard_witness :
    (update_organization_member_role dbSoleAdmin 2 99 Role.viewer
        = .error (.raiseException "Only admins can change roles.")) ∧
    (update_organization_member_role dbSoleAdmin 2 20 Role.viewer
        = .error (.raiseException "Only admins can change roles.")) :=
  ⟨((update_role_guard dbSoleAdmin 2 99 Role.viewer).1 rfl).1,
   ((update_role_guard dbSoleAdmin 2 20 Role.viewer).2.1 ⟨20, 10, 1, Role.admin⟩ rfl rfl).1⟩

/-- Claim C10: `is_org_member` is a total boolean function (its Lean type is
`DB → Nat → Nat → Role → Bool` and it raises nothing), and when the
principal has no membership row in the organization — in particular when the
organization does not exist at all — the result is false for every minimum
role. -/
theorem is_org_member_no_membership_false (db : DB) (orgId userId : Nat)
    (h : ∀ m ∈ db.organization_members,
      ¬(m.organization_id = orgId ∧ m.user_id = userId)) :
    is_org_member db orgId userId Role.admin = false ∧
    is_org_member db orgId userId Role.editor = false ∧
    is_org_member db orgId userId Role.viewer = false := by
  have hf : findMembership db orgId userId = none := by
    rw [findMembership, List.find?_eq_none]
    intro m hm
    simp only [Bool.and_eq_true, beq_iff_eq]
    exact fun hc => h m hm ⟨hc.1, hc.2⟩
  refine ⟨?_, ?_, ?_⟩ <;> simp [is_org_member, hf, roleLevel]

/-- Witness for C10: user 2 has no membership in organization 10 of
`dbSoleAdmin`, and organization 999 does not exist. -/
theorem is_org_member_no_membership_false_witness :
    (is_org_member dbSoleAdmin 10 2 Role.admin = false ∧
      is_org_member dbSoleAdmin 10 2 Role.editor = false ∧
      is_org_member dbSoleAdmin 10 2 Role.viewer = false) ∧
    (is_org_member dbSoleAdmin 999 1 Role.admin = false ∧
      is_org_member dbSoleAdmin 999 1 Role.editor = false ∧
      is_org_member dbSoleAdmin 999 1 Role.viewer = false) :=
  ⟨is_org_member_no_membership_false dbSoleAdmin 10 2 (by decide),
   is_org_member_no_membership_false dbSoleAdmin 999 1 (by decide)⟩

theorem one_le_roleLevel (r : Role) : 1 ≤ roleLevel r := by
  cases r <;> simp [roleLevel]

theorem find?_role_map (l : List Membership) (orgId userId : Nat) (r : Role) :
    (l.map (fun m => if m.organization_id == orgId && m.user_id == userId then
        { m with role := r } else m)).find?
        (fun m => m.organization_id == orgId && m.user_id == userId)
      = (l.find? (fun m => m.organization_id == orgId && m.user_id == userId)).map
          (fun m => { m with role := r }) := by
  induction l with
  | nil => rfl
  | cons a t ih =>
    by_cases h : (a.organization_id == orgId && a.user_id == userId) = true
    · simp [List.find?, h]
    · simp only [List.map_cons, if_neg h, List.find?]
      rw [show ((a.organization_id == orgId && a.user_id == userId)) = false from by simpa using h]
      exact ih

theorem countP_role_map (l : List Membership) (orgId userId : Nat) (r : Role) :
    (l.map (fun m => if m.organization_id == orgId && m.user_id == userId then
        { m with role := r } else m)).countP
        (fun m => m.organization_id == orgId && m.user_id == userId)
      = l.countP (fun m => m.organization_id == orgId && m.user_id == userId) := by
  rw [List.countP_map]
  congr 1
  funext m
  by_cases h : (m.organization_id == orgId && m.user_id == userId) = true
  · simp only [Function.comp_apply, if_pos h]
  · simp only [Function.comp_apply, if_neg h]

theorem upsert_members (db : DB) (orgId userId : Nat) (r : Role) :
    (upsertMembership db orgId userId r).organization_members
      = if (findMembership db orgId userId).isSome then
          db.organization_members.map (fun m =>
            if m.organization_id == orgId && m.user_id == userId then
              { m with role := r } else m)
        else db.organization_members ++ [⟨db.nextId, orgId, userId, r⟩] := by
  unfold upsertMembership
  rw [apply_ite DB.organization_members]

theorem upsert_invitations (db : DB) (orgId userId : Nat) (r : Role) :
    (upsertMembership db orgId userId r).invitations = db.invitations := by
  unfold upsertMembership
  rw [apply_ite DB.invitations]
  simp

theorem findMembership_upsert (db : DB) (orgId userId : Nat) (r : Role) :
    (findMembership (upsertMembership db orgId userId r) orgId userId).map Membership.role
      = some r := by
  rw [findMembership, upsert_members]
  by_cases h : (findMembership db orgId userId).isSome
  · rw [if_pos h, find?_role_map]
    rcases Option.isSome_iff_exists.1 h with ⟨m0, hm0⟩
    rw [findMembership] at hm0
    rw [hm0]
    rfl
  · rw [if_neg h, List.find?_append]
    have h0 : db.organization_members.find?
        (fun m => m.organization_id == orgId && m.user_id == userId) = none := by
      rw [findMembership] at h
      exact Option.not_isSome_iff_eq_none.1 h
    rw [h0, Option.none_or]
    simp

theorem countP_upsert_eq_one (db : DB) (orgId userId : Nat) (r : Role)
    (hle : db.organization_members.countP
        (fun m => m.organization_id == orgId && m.user_id == userId) ≤ 1) :
    (upsertMembership db orgId userId r).organization_members.countP
        (fun m => m.organization_id == orgId && m.user_id == userId) = 1 := by
  rw [upsert_members]
  by_cases h : (findMembership db orgId userId).isSome
  · rw [if_pos h, countP_role_map]
    rcases Option.isSome_iff_exists.1 h with ⟨m0, hm0⟩
    rw [findMembership] at hm0
    have hmem := List.mem_of_find?_eq_some hm0
    have hp0 := List.find?_some hm0
    have hpos : 0 < db.organization_members.countP
        (fun m => m.organization_id == orgId && m.user_id == userId) :=
      List.countP_pos_iff.2 ⟨m0, hmem, hp0⟩
    omega
  · rw [if_neg h, List.countP_append]
    have h0 : db.organization_members.countP
        (fun m => m.organization_id == orgId && m.user_id == userId) = 0 := by
      refine List.countP_eq_zero.2 fun m hm => ?_
      rw [findMembership] at h
      have := List.find?_eq_none.1 (Option.not_isSome_iff_eq_none.1 h) m hm
      simpa using this
    rw [h0]
    simp

theorem invitation_statusMap_mem (l : List Invitation) (invId : Nat) (st : InvStatus) :
    ∀ j ∈ l.map (fun i => if i.id == invId then { i with status := st } else i),
      j.id = invId → j.status = st := by
  intro j hj hid
  rcases List.mem_map.1 hj with ⟨y, hy, rfl⟩
  by_cases h : (y.id == invId) = true
  · rw [if_pos h]
  · rw [if_neg h] at hid ⊢
    exact absurd hid (by simpa using h)

theorem find?_pending_statusMap_none (l : List Invitation) (invId : Nat) (st : InvStatus)
    (hst : st ≠ InvStatus.pending) :
    (l.map (fun i => if i.id == invId then { i with status := st } else i)).find?
        (fun i => i.id == invId && i.status == InvStatus.pending) = none := by
  rw [List.find?_eq_none]
  intro x hx
  rcases List.mem_map.1 hx with ⟨y, hy, rfl⟩
  by_cases h : (y.id == invId) = true
  · rw [if_pos h]
    simp [hst]
  · rw [if_neg h]
    simp [h]

/-- Claim C8: under the table's unique constraint, `is_org_member` returns
true exactly when the principal has a membership row in the organization
whose role level (admin 3, editor 2, viewer 1; absence 0) is at least the
minimum role's level. -/
theorem is_org_member_iff (db : DB) (orgId userId : Nat) (minRole : Role)
    (h : MembersUnique db) :
    is_org_member db orgId userId minRole = true ↔
      ∃ m ∈ db.organization_members, m.organization_id = orgId ∧ m.user_id = userId ∧
        roleLevel minRole ≤ roleLevel m.role := by
  unfold is_org_member
  cases hf : findMembership db orgId userId with
  | none =>
    simp only [decide_eq_true_eq]
    constructor
    · intro hle
      have h1 := one_le_roleLevel minRole
      omega
    · rintro ⟨m, hm, horg, husr, _⟩
      rw [findMembership, List.find?_eq_none] at hf
      have := hf m hm
      simp [horg, husr] at this
  | some m0 =>
    rw [findMembership] at hf
    have hp := List.find?_some hf
    have hmem := List.mem_of_find?_eq_some hf
    simp only [Bool.and_eq_true, beq_iff_eq] at hp
    simp only [decide_eq_true_eq]
    constructor
    · intro hle
      exact ⟨m0, hmem, hp.1, hp.2, hle⟩
    · rintro ⟨m, hm, horg, husr, hle⟩
      have hem : m = m0 := h m hm m0 hmem (by rw [horg, hp.1]) (by rw [husr, hp.2])
      rw [← hem]
      exact hle

/-- Witness for C8 at concrete inputs: user 1 holds the admin role in
organization 10 of `dbSoleAdmin`, so membership at minimum role editor is
granted. -/
theorem is_org_member_iff_witness :
    is_org_member dbSoleAdmin 10 1 Role.editor = true ↔
      ∃ m ∈ dbSoleAdmin.organization_members, m.organization_id = 10 ∧ m.user_id = 1 ∧
        roleLevel Role.editor ≤ roleLevel m.role :=
  is_org_member_iff dbSoleAdmin 10 1 Role.editor (by unfold MembersUnique; decide)

/-- Claim C3: when the generated organization id is fresh (no membership row
already carries it — true of every real uuid generation),
`create_organization_and_assign_admin` succeeds, returns the new
organization's id, and the post-state contains both the organization row and
the creator's admin membership; `is_org_member` then grants the creator
admin access.  An `.error` result of the transaction carries no state, so
the two inserts are atomic: both rows exist afterwards or neither does. -/
theorem create_org_assigns_admin (db : DB) (u : Nat) (orgName orgDescription : String)
    (hfresh : ∀ m ∈ db.organization_members, m.organization_id ≠ db.nextId) :
    ∃ db', create_organization_and_assign_admin db u orgName orgDescription
        = .ok (db', db.nextId) ∧
      (⟨db.nextId, orgName, orgDescription, u⟩ : Organization) ∈ db'.organizations ∧
      (⟨db.nextId + 1, db.nextId, u, Role.admin⟩ : Membership) ∈ db'.organization_members ∧
      is_org_member db' db.nextId u Role.admin = true := by
  have hnone0 : db.organization_members.find?
      (fun m => m.organization_id == db.nextId && m.user_id == u) = none := by
    rw [List.find?_eq_none]
    intro m hm
    simp only [Bool.and_eq_true, beq_iff_eq, not_and]
    intro horg
    exact absurd horg (hfresh m hm)
  refine ⟨{ db with
      organizations := db.organizations ++ [⟨db.nextId, orgName, orgDescription, u⟩],
      organization_members :=
        db.organization_members ++ [⟨db.nextId + 1, db.nextId, u, Role.admin⟩],
      nextId := db.nextId + 2 }, ?_, ?_, ?_, ?_⟩
  · simp only [create_organization_and_assign_admin, insertMembership, findMembership, hnone0]
    rfl
  · simp
  · simp
  · unfold is_org_member
    have hfind : findMembership { db with
        organizations := db.organizations ++ [⟨db.nextId, orgName, orgDescription, u⟩],
        organization_members :=
          db.organization_members ++ [⟨db.nextId + 1, db.nextId, u, Role.admin⟩],
        nextId := db.nextId + 2 } db.nextId u
          = some ⟨db.nextId + 1, db.nextId, u, Role.admin⟩ := by
      rw [findMembership]
      simp only [List.find?_append, hnone0, Option.none_or]
      simp
    rw [hfind]
    rfl

/-- Witness for C3 at a concrete input: creating an organization in
`dbSoleAdmin` (fresh id 21) as user 2. -/
theorem create_org_assigns_admin_witness :
    ∃ db', create_organization_and_assign_admin dbSoleAdmin 2 "Beta" "e"
        = .ok (db', dbSoleAdmin.nextId) ∧
      (⟨dbSoleAdmin.nextId, "Beta", "e", 2⟩ : Organization) ∈ db'.organizations ∧
      (⟨dbSoleAdmin.nextId + 1, dbSoleAdmin.nextId, 2, Role.admin⟩ : Membership)
          ∈ db'.organization_members ∧
      is_org_member db' dbSoleAdmin.nextId 2 Role.admin = true :=
  create_org_assigns_admin dbSoleAdmin 2 "Beta" "e" (by decide)

/-- Claim C7: `invite_organization_member` inserts a pending invitation row
when the inviter is an admin of the organization, and otherwise fails with
the `Forbidden` admin error, creating no invitation row (the transaction is
rolled back, leaving the database unchanged). -/
theorem invite_admin_guard (db : DB) (u orgId : Nat) (email : String) (r : Role) :
    (is_org_member db orgId u Role.admin = true →
      invite_organization_member db u orgId email r
          = .ok { db with
              invitations := db.invitations ++
                [⟨db.nextId, orgId, u, email, r, InvStatus.pending⟩],
              nextId := db.nextId + 1 }) ∧
    (is_org_member db orgId u Role.admin = false →
      invite_organization_member db u orgId email r
          = .error (.raiseException "Only admins can invite new members.") ∧
        applyResult db (invite_organization_member db u orgId email r) = db) := by
  constructor
  · intro h
    unfold invite_organization_member
    rw [h]
    rfl
  · intro h
    have he : invite_organization_member db u orgId email r
        = .error (.raiseException "Only admins can invite new members.") := by
      unfold invite_organization_member
      rw [h]
      rfl
    exact ⟨he, by rw [he]; rfl⟩

/-- Witness for C7 at concrete inputs: user 1 (admin of organization 10 in
`dbInv`) invites successfully; user 2 (not a member) is refused. -/
theorem invite_admin_guard_witness :
    invite_organization_member dbInv 1 10 "c@x" Role.viewer
        = .ok { dbInv with
            invitations := dbInv.invitations ++
              [⟨dbInv.nextId, 10, 1, "c@x", Role.viewer, InvStatus.pending⟩],
            nextId := dbInv.nextId + 1 } ∧
    invite_organization_member dbInv 2 10 "c@x" Role.viewer
        = .error (.raiseException "Only admins can invite new members.") :=
  ⟨(invite_admin_guard dbInv 1 10 "c@x" Role.viewer).1 rfl,
   ((invite_admin_guard dbInv 2 10 "c@x" Role.viewer).2 rfl).1⟩

/-- Claim C4: accepting a pending invitation as a principal whose
authenticated email equals the invitee email succeeds, and atomically
(a) upserts the acting principal's membership in the invitation's
organization at the invited role — an existing membership's role is
overwritten by the `ON CONFLICT ... DO UPDATE` — and (b) marks every
invitation row with that id `accepted`. -/
theorem accept_pending_matching_email (db : DB) (u invId : Nat) (inv : Invitation)
    (hfind : findPendingInvitation db invId = some inv)
    (hmail : userEmail db u = some inv.invitee_email) :
    ∃ db', accept_invitation db u invId = .ok db' ∧
      (findMembership db' inv.organization_id u).map Membership.role = some inv.role ∧
      (∀ j ∈ db'.invitations, j.id = invId → j.status = InvStatus.accepted) := by
  have hne : sqlNeqEmail (userEmail db u) inv.invitee_email = false := by
    rw [hmail]
    simp [sqlNeqEmail]
  have hacc : accept_invitation db u invId
      = .ok { upsertMembership db inv.organization_id u inv.role with
          invitations :=
            (upsertMembership db inv.organization_id u inv.role).invitations.map
              (fun i => if i.id == invId then { i with status := InvStatus.accepted } else i) } := by
    unfold accept_invitation
    rw [hfind]
    simp [hne]
  refine ⟨_, hacc, ?_, ?_⟩
  · exact findMembership_upsert db inv.organization_id u inv.role
  · intro j hj hid
    rw [upsert_invitations] at hj
    exact invitation_statusMap_mem db.invitations invId InvStatus.accepted j hj hid

/-- Witness for C4 at a concrete input: user 2 (email `b@x`) accepts the
pending invitation 30 of `dbInv` and ends up an editor of organization 10. -/
theorem accept_pending_matching_email_witness :
    ∃ db', accept_invitation dbInv 2 30 = .ok db' ∧
      (findMembership db' 10 2).map Membership.role = some Role.editor ∧
      (∀ j ∈ db'.invitations, j.id = 30 → j.status = InvStatus.accepted) :=
  accept_pending_matching_email dbInv 2 30
    ⟨30, 10, 1, "b@x", Role.editor, InvStatus.pending⟩ rfl rfl

/-- Claim C5: an absent or no-longer-pending invitation makes both
`accept_invitation` and `decline_invitation` fail with the
`NotFound`-classified message; accepting the same invitation twice makes the
second call fail that way, and (under the table's unique constraint) exactly
one membership row exists for the (organization, principal) pair
afterwards. -/
theorem invitation_twice_notFound :
    (∀ db u invId, findPendingInvitation db invId = none →
      accept_invitation db u invId
          = .error (.raiseException "Invitation not found or already actioned.") ∧
      decline_invitation db u invId
          = .error (.raiseException "Invitation not found or already actioned.")) ∧
    errorKind (.raiseException "Invitation not found or already actioned.")
        = FailureKind.notFound ∧
    (∀ db u invId inv, findPendingInvitation db invId = some inv →
      userEmail db u = some inv.invitee_email →
      db.organization_members.countP
          (fun m => m.organization_id == inv.organization_id && m.user_id == u) ≤ 1 →
      ∃ db', accept_invitation db u invId = .ok db' ∧
        accept_invitation db' u invId
            = .error (.raiseException "Invitation not found or already actioned.") ∧
        db'.organization_members.countP
            (fun m => m.organization_id == inv.organization_id && m.user_id == u) = 1) := by
  refine ⟨?_, by decide, ?_⟩
  · intro db u invId h
    constructor
    · unfold accept_invitation
      rw [h]
    · unfold decline_invitation
      rw [h]
  · intro db u invId inv hfind hmail hle
    have hne : sqlNeqEmail (userEmail db u) inv.invitee_email = false := by
      rw [hmail]
      simp [sqlNeqEmail]
    have hacc : accept_invitation db u invId
        = .ok { upsertMembership db inv.organization_id u inv.role with
            invitations :=
              (upsertMembership db inv.organization_id u inv.role).invitations.map
                (fun i => if i.id == invId then { i with status := InvStatus.accepted } else i) } := by
      unfold accept_invitation
      rw [hfind]
      simp [hne]
    refine ⟨_, hacc, ?_, ?_⟩
    · have hnone : findPendingInvitation
          { upsertMembership db inv.organization_id u inv.role with
            invitations :=
              (upsertMembership db inv.organization_id u inv.role).invitations.map
                (fun i => if i.id == invId then { i with status := InvStatus.accepted } else i) }
          invId = none := by
        rw [findPendingInvitation]
        show ((upsertMembership db inv.organization_id u inv.role).invitations.map _).find? _ = none
        rw [upsert_invitations]
        exact find?_pending_statusMap_none db.invitations invId InvStatus.accepted (by simp)
      unfold accept_invitation
      rw [hnone]
    · show (upsertMembership db inv.organization_id u inv.role).organization_members.countP _ = 1
      exact countP_upsert_eq_one db inv.organization_id u inv.role hle

/-- Witness for C5 at concrete inputs: `dbSoleAdmin` has no invitation 77;
accepting invitation 30 of `dbInv` twice as user 2 fails the second time and
leaves exactly one membership row for (organization 10, user 2). -/
theorem invitation_twice_notFound_witness :
    (accept_invitation dbSoleAdmin 1 77
        = .error (.raiseException "Invitation not found or already actioned.")) ∧
    (∃ db', accept_invitation dbInv 2 30 = .ok db' ∧
      accept_invitation db' 2 30
          = .error (.raiseException "Invitation not found or already actioned.") ∧
      db'.organization_members.countP
          (fun m => m.organization_id == 10 && m.user_id == 2) = 1) :=
  ⟨(invitation_twice_notFound.1 dbSoleAdmin 1 77 rfl).1,
   invitation_twice_notFound.2.2 dbInv 2 30
     ⟨30, 10, 1, "b@x", Role.editor, InvStatus.pending⟩ rfl rfl (by decide)⟩

/-- Claim C6: accepting a pending invitation as an authenticated principal
whose email differs from the invitee email fails with the
`Forbidden`-classified identity error; the transaction is rolled back, so
the invitation stays `pending` and no membership row is created or
modified. -/
theorem accept_wrong_email_forbidden (db : DB) (u invId : Nat) (inv : Invitation) (e : String)
    (hfind : findPendingInvitation db invId = some inv)
    (hmail : userEmail db u = some e)
    (hne : e ≠ inv.invitee_email) :
    accept_invitation db u invId
        = .error (.raiseException "You are not authorized to accept this invitation.") ∧
    applyResult db (accept_invitation db u invId) = db ∧
    errorKind (.raiseException "You are not authorized to accept this invitation.")
        = FailureKind.forbidden := by
  have hsql : sqlNeqEmail (userEmail db u) inv.invitee_email = true := by
    rw [hmail]
    simp [sqlNeqEmail, hne]
  have he : accept_invitation db u invId
      = .error (.raiseException "You are not authorized to accept this invitation.") := by
    unfold accept_invitation
    rw [hfind]
    simp [hsql]
  exact ⟨he, by rw [he]; rfl, by decide⟩

/-- Witness for C6 at a concrete input: user 1 (email `a@x`) cannot accept
invitation 30 of `dbInv`, which is addressed to `b@x`. -/
theorem accept_wrong_email_forbidden_witness :
    accept_invitation dbInv 1 30
        = .error (.raiseException "You are not authorized to accept this invitation.") ∧
    applyResult dbInv (accept_invitation dbInv 1 30) = dbInv ∧
    errorKind (.raiseException "You are not authorized to accept this invitation.")
        = FailureKind.forbidden :=
  accept_wrong_email_forbidden dbInv 1 30
    ⟨30, 10, 1, "b@x", Role.editor, InvStatus.pending⟩ "a@x" rfl rfl (by decide)

end Roadmap
